import Mathlib

/-!
# Verification of the Jurix retrieval-and-answer pipeline

A shallow embedding of the query-answering core of the Jurix repository
(`src/llm.py`, `src/db.py`, `src/ingestion.py`) together with proofs of the
specification's claims about it.

Modelling conventions:
* External collaborators (Gemini embedding API, Gemini generation API, the
  Postgres similarity store) are opaque capabilities, collected into an `Env`
  record.  A call that can raise an exception is modelled as returning
  `Except String _`; a caught exception is the `.error` branch.
* Python dictionaries holding parsed LLM JSON are modelled by the `Json`
  inductive type; records returned by the database layer are modelled by
  structures whose fields are exactly the columns selected by the SQL in
  `db.py`.
* Python floats (cosine similarities) are modelled as rationals `ℚ`: only
  their linear order matters to the code under verification.
* `hash(doc["content"][:100])` in the dedup loop is modelled by the
  100-character prefix itself (`String.take 100`), i.e. hashing is assumed
  injective on the prefixes that occur.
-/

namespace Jurix

/-- Parsed JSON values, as produced by `json.loads` inside
`analyze_and_generate_queries` (src/llm.py line 200).  Objects keep their
key/value pairs in order, as Python dicts do. -/
inductive Json : Type where
  | null : Json
  | bool (b : Bool) : Json
  | num (n : Int) : Json
  | str (s : String) : Json
  | arr (xs : List Json) : Json
  | obj (kvs : List (String × Json)) : Json

/-- Python `d[k]` / `k in d` on a dict: first binding of the key, if the value
is an object; `none` models `KeyError` / `in` being false (and is always
`none` on non-objects). -/
def Json.lookup : Json → String → Option Json
  | .obj kvs, k =>
      match kvs.find? (fun kv => kv.1 == k) with
      | some kv => some kv.2
      | none => none
  | _, _ => none

/-- Python `isinstance(x, dict)`. -/
def Json.isObj : Json → Bool
  | .obj _ => true
  | _ => false

/-- Python `len(x)`: defined for sized values (str, list, dict), a `TypeError`
(modelled as `none`) otherwise.  The logging lines inside the `try` block of
`analyze_and_generate_queries` (src/llm.py lines 206-212) call `len` on both
values, so a dict whose values are unsized raises there and falls back. -/
def Json.pyLen : Json → Option Nat
  | .str s => some s.length
  | .arr xs => some xs.length
  | .obj kvs => some kvs.length
  | _ => none

/-- A well-formed query plan: one list of sub-query strings per logical
table. -/
structure QueryPlan where
  legal_docs : List String
  cases : List String
deriving DecidableEq

/-- The JSON value a `QueryPlan` denotes (the dict literal built by the
fallback branch of `analyze_and_generate_queries`, src/llm.py lines 219-222). -/
def QueryPlan.toJson (p : QueryPlan) : Json :=
  .obj [("legal_docs", .arr (p.legal_docs.map .str)),
        ("cases", .arr (p.cases.map .str))]

/-- Python `s.lower()`, modelled as per-character ASCII case folding (the
keywords being matched are all ASCII). -/
def pyLower (s : String) : String := ⟨s.data.map Char.toLower⟩

/-- Python `keyword in user_query.lower()` for each keyword: case-insensitive
substring containment, `List.IsInfix` on the character lists. -/
def containsAnyKeyword (user_query : String) (keywords : List String) : Bool :=
  keywords.any (fun k => decide (k.data <:+: (pyLower user_query).data))

/-- The keyword-heuristic fallback plan of `analyze_and_generate_queries`
(src/llm.py lines 219-222): the literal user query targets `legal_docs` iff
the lowercased query contains one of five statutory keywords, and `cases` iff
it contains one of five judicial keywords. -/
def fallback_plan (user_query : String) : QueryPlan :=
  { legal_docs :=
      if containsAnyKeyword user_query ["section", "article", "act", "ipc", "constitution"]
      then [user_query] else []
    cases :=
      if containsAnyKeyword user_query ["case", "judgment", "precedent", "court", "interpretation"]
      then [user_query] else [] }

/-- The structure validation of `analyze_and_generate_queries`
(src/llm.py lines 203-204): `isinstance(queries, dict)` and both keys
present.  The conjuncts on `pyLen` model the `len(...)` calls on the two
values in the logging lines that still run inside the same `try` block;
nothing else about the values is checked. -/
def validate_queries (j : Json) : Bool :=
  j.isObj && ((j.lookup "legal_docs").bind Json.pyLen).isSome
          && ((j.lookup "cases").bind Json.pyLen).isSome

/-- `analyze_and_generate_queries` (src/llm.py lines 108-222).  The LLM call
plus JSON extraction/parsing is the opaque input `llm` (`.error` = the call
raised, or the response failed to parse as JSON).  A parsed value that fails
validation raises `ValueError`, which the same `except` catches, so both
paths fall back to the keyword heuristic; a validated dict is returned
unchanged. -/
def analyze_and_generate_queries (llm : Except String Json) (user_query : String) : Json :=
  match llm with
  | .error _ => (fallback_plan user_query).toJson
  | .ok queries =>
      if validate_queries queries then queries
      else (fallback_plan user_query).toJson

/-- A row of the SQL result for `legal_docs` in `fetch_similar_documents`
(src/db.py lines 127-142): the SELECT returns exactly
`content, title, similarity`. -/
structure LegalRow where
  content : String
  title : String
  similarity : ℚ
deriving DecidableEq

/-- A row of the SQL result for `cases` in `fetch_similar_documents`
(src/db.py lines 143-159): the SELECT returns exactly
`content, case_title, section_type, similarity` — no `doc_id` column. -/
structure CaseRow where
  content : String
  case_title : String
  section_type : String
  similarity : ℚ
deriving DecidableEq

/-- The result dict flowing through `answer_query_unified`: optional fields
model dict keys that may be absent (`doc.get(...)`). -/
structure Doc where
  content : String
  title : Option String
  case_title : Option String
  section_type : Option String
  doc_id : Option String
  source_table : String
  similarity : ℚ
deriving DecidableEq

/-- A context entry as built in step 4 of `answer_query_unified`
(src/llm.py lines 305-312): all fields defaulted to strings. -/
structure Ctx where
  content : String
  title : String
  section_type : String
  doc_id : String
  source_table : String
  similarity : ℚ
deriving DecidableEq

/-- The external collaborators of the pipeline, as opaque capabilities.
`embed q` models `get_embeddings([q])[0]`: `get_embeddings` returns `None`
on an API failure (src/ingestion.py lines 34-36) and the subsequent `[0]`
subscript then raises, so the whole step is an `Except`.  `dbLegal`/`dbCases`
model the connection + SQL round trip inside `fetch_similar_documents`
(`.error` = any exception there).  `generate` models
`client.models.generate_content(...).text` (`.ok none` = a `None` text).
`planLLM` models the generation + JSON-parse step of
`analyze_and_generate_queries`. -/
structure Env where
  embed : String → Except String (List ℚ)
  dbLegal : List ℚ → Nat → Except String (List LegalRow)
  dbCases : List ℚ → Nat → Except String (List CaseRow)
  generate : String → Except String (Option String)
  planLLM : Except String Json

/-- `fetch_similar_documents(table_name="legal_docs", ...)` (src/db.py lines
112-167): every exception is caught inside the function and the accumulated
`results` list — empty when the connection or the query failed — is
returned. -/
def fetch_similar_documents_legal (env : Env) (query_embedding : List ℚ) (top_k : Nat) :
    List LegalRow :=
  match env.dbLegal query_embedding top_k with
  | .ok rows => rows
  | .error _ => []

/-- `fetch_similar_documents(table_name="cases", ...)` (src/db.py lines
143-159), same exception convention. -/
def fetch_similar_documents_cases (env : Env) (query_embedding : List ℚ) (top_k : Nat) :
    List CaseRow :=
  match env.dbCases query_embedding top_k with
  | .ok rows => rows
  | .error _ => []

/-- Tagging a `legal_docs` row with `doc["source_table"] = "legal_docs"`
(src/llm.py line 261); the dict has no `case_title`, `section_type` or
`doc_id` keys. -/
def LegalRow.toDoc (r : LegalRow) : Doc :=
  { content := r.content, title := some r.title, case_title := none,
    section_type := none, doc_id := none, source_table := "legal_docs",
    similarity := r.similarity }

/-- Tagging a `cases` row with `doc["source_table"] = "cases"` (src/llm.py
line 277); the dict has no `title` and — crucially — no `doc_id` key. -/
def CaseRow.toDoc (r : CaseRow) : Doc :=
  { content := r.content, title := none, case_title := some r.case_title,
    section_type := some r.section_type, doc_id := none,
    source_table := "cases", similarity := r.similarity }

/-- The dedup fingerprint `hash(doc["content"][:100])` (src/llm.py lines
258, 274), modelled as the 100-character prefix itself. -/
def dedupKey (d : Doc) : String := d.content.take 100

/-- The inner dedup-and-append loop body (src/llm.py lines 257-262 and
273-278): for each fetched doc, skip it when its fingerprint is in
`seen_content`, otherwise record the fingerprint and append the doc to
`all_results`. -/
def addResults (seen : List String) (acc : List Doc) : List Doc → List String × List Doc
  | [] => (seen, acc)
  | d :: rest =>
      if dedupKey d ∈ seen then addResults seen acc rest
      else addResults (dedupKey d :: seen) (acc ++ [d]) rest

/-- The `legal_docs` search loop (src/llm.py lines 249-262): for each
sub-query in list order, embed it, fetch top-7 rows, tag and dedup-append.
An embedding failure propagates (it is only caught by the top-level handler
of `answer_query_unified`). -/
def searchTableLegal (env : Env) :
    List String → List String → List Doc → Except String (List String × List Doc)
  | [], seen, acc => .ok (seen, acc)
  | q :: rest, seen, acc =>
      match env.embed q with
      | .error e => .error e
      | .ok emb =>
          let docs := (fetch_similar_documents_legal env emb 7).map LegalRow.toDoc
          let sa := addResults seen acc docs
          searchTableLegal env rest sa.1 sa.2

/-- The `cases` search loop (src/llm.py lines 265-278), top-11, continuing
with the `seen_content` set and `all_results` list left by the `legal_docs`
loop. -/
def searchTableCases (env : Env) :
    List String → List String → List Doc → Except String (List String × List Doc)
  | [], seen, acc => .ok (seen, acc)
  | q :: rest, seen, acc =>
      match env.embed q with
      | .error e => .error e
      | .ok emb =>
          let docs := (fetch_similar_documents_cases env emb 11).map CaseRow.toDoc
          let sa := addResults seen acc docs
          searchTableCases env rest sa.1 sa.2

/-- Step 2 of `answer_query_unified` (src/llm.py lines 243-278): the merged,
deduplicated `all_results` list — all `legal_docs` sub-queries first, then
all `cases` sub-queries, sharing one `seen_content` set. -/
def runSearches (env : Env) (legal_queries case_queries : List String) :
    Except String (List Doc) :=
  match searchTableLegal env legal_queries [] [] with
  | .error e => .error e
  | .ok (seen, acc) =>
      match searchTableCases env case_queries seen acc with
      | .error e => .error e
      | .ok (_, acc2) => .ok acc2

/-- Reading a plan value as the list of sub-query strings the search loops
iterate over.  A non-list value (or a list with non-string elements) is
modelled as a runtime error: in Python such a value would make the body of
`answer_query_unified` misbehave inside its `try` block (e.g. `len`/indexing
failures or embedding a non-string), and the top-level handler turns any
such failure into the fixed error string — the same observable outcome as
this model's `.error` branch. -/
def Json.asStrList : Json → Except String (List String)
  | .arr xs =>
      xs.foldr
        (fun j acc =>
          match j, acc with
          | .str s, .ok rest => .ok (s :: rest)
          | _, _ => .error "TypeError: expected string")
        (.ok [])
  | _ => .error "TypeError: expected list"

/-- The two sub-query lists `query_plan["legal_docs"]` and
`query_plan["cases"]` read in `answer_query_unified` (src/llm.py lines 249,
265) from the plan produced by `analyze_and_generate_queries`. -/
def planLists (env : Env) (query : String) : Except String (List String × List String) :=
  let qp := analyze_and_generate_queries env.planLLM query
  match qp.lookup "legal_docs", qp.lookup "cases" with
  | some v1, some v2 =>
      match v1.asStrList, v2.asStrList with
      | .ok l1, .ok l2 => .ok (l1, l2)
      | .error e, _ => .error e
      | _, .error e => .error e
  | none, _ => .error "KeyError: legal_docs"
  | _, none => .error "KeyError: cases"

/-- The comparison used by
`all_results.sort(key=lambda x: x["similarity"], reverse=True)`
(src/llm.py line 287): descending similarity. -/
def simGe (a b : Doc) : Prop := b.similarity ≤ a.similarity

instance : DecidableRel simGe :=
  fun a b => inferInstanceAs (Decidable (b.similarity ≤ a.similarity))

/-- Step 3 of `answer_query_unified` (src/llm.py lines 287-288): stable sort
descending by similarity (Python's `list.sort` is stable; modelled by the
stable `List.insertionSort`), then `all_results[:18]`. -/
def rankTop (all_results : List Doc) : List Doc :=
  (all_results.insertionSort simGe).take 18

/-- The "nothing found" return string (src/llm.py line 282). -/
def noInfoMsg : String :=
  "I couldn't find relevant information in the legal database for your query. Please try rephrasing your question or ensure the documents are uploaded."

/-- The top-level exception handler's return string (src/llm.py line 329). -/
def procErrMsg : String := "Error processing your query. Please try again."

/-- The generation-failure return string (src/llm.py line 485). -/
def genErrMsg : String := "Error generating response from AI."

/-- The empty-response return string (src/llm.py line 481). -/
def emptyRespMsg : String := "Error: Empty response from AI."

/-- Python `a or b` for an optional string `a` (`None` and `""` are falsy). -/
def pyOrStr (a : Option String) (b : String) : String :=
  match a with
  | some s => if s = "" then b else s
  | none => b

/-- Step 4 of `answer_query_unified` (src/llm.py lines 294-312): one context
dict per top result, with `title = doc.get("title") or
doc.get("case_title", "Untitled")`, and `section_type`/`doc_id` defaulted to
`""` via `doc.get(..., "")`. -/
def toCtx (d : Doc) : Ctx :=
  { content := d.content
    title := pyOrStr d.title (d.case_title.getD "Untitled")
    section_type := d.section_type.getD ""
    doc_id := d.doc_id.getD ""
    source_table := d.source_table
    similarity := d.similarity }

/-- The statutory group of `get_gemini_response_unified` (src/llm.py
line 337). -/
def statutoryOf (context : List Ctx) : List Ctx :=
  context.filter (fun c => c.source_table == "legal_docs")

/-- The judicial group of `get_gemini_response_unified` (src/llm.py
line 338). -/
def judicialOf (context : List Ctx) : List Ctx :=
  context.filter (fun c => c.source_table == "cases")

/-- Python `enumerate(xs, i)`. -/
def enumFrom (i : Nat) : List α → List (Nat × α)
  | [] => []
  | x :: xs => (i, x) :: enumFrom (i + 1) xs

/-- One statutory context line:
`f"{i}. [{doc['title']}]\n{doc['content'][:600]}...\n\n"`
(src/llm.py line 346). -/
def renderStatutory (p : Nat × Ctx) : String :=
  toString p.1 ++ ". [" ++ p.2.title ++ "]\n" ++ p.2.content.take 600 ++ "...\n\n"

/-- `section_info = f" ({section})" if section else ""` (src/llm.py
line 353). -/
def sectionInfo (c : Ctx) : String :=
  if c.section_type = "" then "" else " (" ++ c.section_type ++ ")"

/-- `doc_id_info = f" [doc_id: {doc_id}]" if doc_id else ""` (src/llm.py
line 354). -/
def docIdInfo (c : Ctx) : String :=
  if c.doc_id = "" then "" else " [doc_id: " ++ c.doc_id ++ "]"

/-- One judicial context line (src/llm.py line 355). -/
def renderJudicial (p : Nat × Ctx) : String :=
  toString p.1 ++ ". [" ++ p.2.title ++ "]" ++ sectionInfo p.2 ++ docIdInfo p.2
    ++ "\n" ++ p.2.content.take 600 ++ "...\n\n"

/-- The `formatted_context` accumulation of `get_gemini_response_unified`
(src/llm.py lines 340-355): each group's header and entries are appended
only when the group is non-empty. -/
def formatted_context (context : List Ctx) : String :=
  (if (statutoryOf context).isEmpty then ""
   else "\n## Statutory Provisions (Constitution, IPC, IT Act):\n"
        ++ String.join ((enumFrom 1 (statutoryOf context)).map renderStatutory))
  ++
  (if (judicialOf context).isEmpty then ""
   else "\n## Court Judgments & Precedents:\n"
        ++ String.join ((enumFrom 1 (judicialOf context)).map renderJudicial))

/-- The fixed instruction template of `get_gemini_response_unified`
(src/llm.py lines 357-466): tone rules, answering strategy, the structured
markdown output contract and the disclaimer.  Its text is opaque to every
claim; the constant keeps its opening line as an anchor. -/
def promptInstructions : String :=
  "You are a friendly and knowledgeable legal assistant helping common people understand Indian law. Your goal is to provide clear, helpful answers in simple everyday language. [tone rules, answering strategy, response structure and disclaimer as in src/llm.py lines 359-464]"

/-- The full generation prompt (src/llm.py lines 357-474): instruction
template, then the formatted context, then the user question. -/
def unified_prompt (fc query : String) : String :=
  promptInstructions ++ "\n\nRetrieved Context:\n" ++ fc
    ++ "\n\nUser Question:\n" ++ query
    ++ "\n\nProvide a comprehensive, well-structured answer following the appropriate format above:"

/-- `get_gemini_response_unified` (src/llm.py lines 332-485): formats the
context, calls the generation model and returns its text, converting an
exception or an empty/`None` text into a fixed error string.  It never
raises. -/
def get_gemini_response_unified (env : Env) (context : List Ctx) (query : String) : String :=
  match env.generate (unified_prompt (formatted_context context) query) with
  | .error _ => genErrMsg
  | .ok none => emptyRespMsg
  | .ok (some t) => if t = "" then emptyRespMsg else t

/-- The body of the `try` block of `answer_query_unified` (src/llm.py lines
229-323): plan, search both tables, short-circuit on an empty merged result
set, otherwise rank, build the context and generate. -/
def answer_body (env : Env) (query : String) : Except String String :=
  match planLists env query with
  | .error e => .error e
  | .ok (legal_queries, case_queries) =>
      match runSearches env legal_queries case_queries with
      | .error e => .error e
      | .ok all_results =>
          if all_results.isEmpty then .ok noInfoMsg
          else .ok (get_gemini_response_unified env ((rankTop all_results).map toCtx) query)

/-- `answer_query_unified` (src/llm.py lines 225-329): the whole body is in
one `try`; any escaping exception becomes the fixed processing-error
string. -/
def answer_query_unified (env : Env) (query : String) : String :=
  match answer_body env query with
  | .ok s => s
  | .error _ => procErrMsg

/-- Ghost observer: the docs fetched by the `legal_docs` loop in processing
order, before deduplication (the bodies of src/llm.py lines 251-257,
without the `seen_content` filter). -/
def fetchSeqLegal (env : Env) : List String → Except String (List Doc)
  | [] => .ok []
  | q :: rest =>
      match env.embed q with
      | .error e => .error e
      | .ok emb =>
          match fetchSeqLegal env rest with
          | .error e => .error e
          | .ok ds => .ok ((fetch_similar_documents_legal env emb 7).map LegalRow.toDoc ++ ds)

/-- Ghost observer: the docs fetched by the `cases` loop in processing
order, before deduplication. -/
def fetchSeqCases (env : Env) : List String → Except String (List Doc)
  | [] => .ok []
  | q :: rest =>
      match env.embed q with
      | .error e => .error e
      | .ok emb =>
          match fetchSeqCases env rest with
          | .error e => .error e
          | .ok ds => .ok ((fetch_similar_documents_cases env emb 11).map CaseRow.toDoc ++ ds)

/-- Ghost observer: every fetched doc of a query plan in processing order —
all `legal_docs` sub-queries (in list order) before all `cases` sub-queries
(in list order). -/
def allFetched (env : Env) (legal_queries case_queries : List String) :
    Except String (List Doc) :=
  match fetchSeqLegal env legal_queries with
  | .error e => .error e
  | .ok a =>
      match fetchSeqCases env case_queries with
      | .error e => .error e
      | .ok b => .ok (a ++ b)

/-- First-occurrence filter relative to an already-seen fingerprint set. -/
def firstOccurAux (seen : List String) : List Doc → List Doc
  | [] => []
  | d :: rest =>
      if dedupKey d ∈ seen then firstOccurAux seen rest
      else d :: firstOccurAux (dedupKey d :: seen) rest

/-- Keep the first occurrence of each dedup fingerprint, drop the rest. -/
def firstOccur (l : List Doc) : List Doc := firstOccurAux [] l

/-- The fingerprint set accumulated by scanning a doc list. -/
def collectSeen (seen : List String) : List Doc → List String
  | [] => seen
  | d :: rest =>
      if dedupKey d ∈ seen then collectSeen seen rest
      else collectSeen (dedupKey d :: seen) rest

instance : IsTotal Doc simGe :=
  ⟨fun a b => le_total b.similarity a.similarity⟩

instance : IsTrans Doc simGe :=
  ⟨fun _ _ _ hab hbc => le_trans hbc hab⟩

theorem addResults_eq (docs : List Doc) :
    ∀ seen acc, addResults seen acc docs =
      (collectSeen seen docs, acc ++ firstOccurAux seen docs) := by
  induction docs with
  | nil => intro seen acc; simp [addResults, collectSeen, firstOccurAux]
  | cons d rest ih =>
      intro seen acc
      by_cases h : dedupKey d ∈ seen
      · simp [addResults, collectSeen, firstOccurAux, h, ih]
      · simp [addResults, collectSeen, firstOccurAux, h, ih]

theorem collectSeen_append (a : List Doc) :
    ∀ (b : List Doc) (seen : List String),
      collectSeen seen (a ++ b) = collectSeen (collectSeen seen a) b := by
  induction a with
  | nil => intro b seen; simp [collectSeen]
  | cons d rest ih =>
      intro b seen
      by_cases h : dedupKey d ∈ seen
      · simp [collectSeen, h, ih]
      · simp [collectSeen, h, ih]

theorem firstOccurAux_append (a : List Doc) :
    ∀ (b : List Doc) (seen : List String),
      firstOccurAux seen (a ++ b) =
        firstOccurAux seen a ++ firstOccurAux (collectSeen seen a) b := by
  induction a with
  | nil => intro b seen; simp [firstOccurAux, collectSeen]
  | cons d rest ih =>
      intro b seen
      by_cases h : dedupKey d ∈ seen
      · simp [firstOccurAux, collectSeen, h, ih]
      · simp [firstOccurAux, collectSeen, h, ih]

theorem searchTableLegal_eq (env : Env) (qs : List String) :
    ∀ seen acc, searchTableLegal env qs seen acc =
      (fetchSeqLegal env qs).map
        (fun ds => (collectSeen seen ds, acc ++ firstOccurAux seen ds)) := by
  induction qs with
  | nil => intro seen acc; simp [searchTableLegal, fetchSeqLegal, Except.map, collectSeen, firstOccurAux]
  | cons q rest ih =>
      intro seen acc
      simp only [searchTableLegal, fetchSeqLegal]
      cases hq : env.embed q with
      | error e => simp [Except.map]
      | ok emb =>
          simp only [addResults_eq, ih]
          cases h2 : fetchSeqLegal env rest with
          | error e => simp [Except.map]
          | ok ds =>
              simp [Except.map, collectSeen_append, firstOccurAux_append, List.append_assoc]

theorem searchTableCases_eq (env : Env) (qs : List String) :
    ∀ seen acc, searchTableCases env qs seen acc =
      (fetchSeqCases env qs).map
        (fun ds => (collectSeen seen ds, acc ++ firstOccurAux seen ds)) := by
  induction qs with
  | nil => intro seen acc; simp [searchTableCases, fetchSeqCases, Except.map, collectSeen, firstOccurAux]
  | cons q rest ih =>
      intro seen acc
      simp only [searchTableCases, fetchSeqCases]
      cases hq : env.embed q with
      | error e => simp [Except.map]
      | ok emb =>
          simp only [addResults_eq, ih]
          cases h2 : fetchSeqCases env rest with
          | error e => simp [Except.map]
          | ok ds =>
              simp [Except.map, collectSeen_append, firstOccurAux_append, List.append_assoc]

/-- The interleaved search-and-dedup loops compute exactly the
first-occurrence filter of the full fetched sequence. -/
theorem runSearches_eq (env : Env) (lq cq : List String) :
    runSearches env lq cq = (allFetched env lq cq).map firstOccur := by
  simp only [runSearches, allFetched, searchTableLegal_eq]
  cases hA : fetchSeqLegal env lq with
  | error e => simp [Except.map]
  | ok a =>
      simp only [Except.map, searchTableCases_eq]
      cases hB : fetchSeqCases env cq with
      | error e => simp [Except.map]
      | ok b => simp [Except.map, firstOccur, firstOccurAux_append, collectSeen]

theorem firstOccurAux_notMem_seen (l : List Doc) :
    ∀ (seen : List String) (d : Doc), d ∈ firstOccurAux seen l → dedupKey d ∉ seen := by
  induction l with
  | nil => intro seen d hd; simp [firstOccurAux] at hd
  | cons a rest ih =>
      intro seen d hd
      by_cases h : dedupKey a ∈ seen
      · simp only [firstOccurAux, if_pos h] at hd
        exact ih seen d hd
      · simp only [firstOccurAux, if_neg h, List.mem_cons] at hd
        rcases hd with rfl | hd
        · exact h
        · have := ih _ d hd
          intro hc
          exact this (List.mem_cons_of_mem _ hc)

theorem firstOccurAux_pairwise (l : List Doc) :
    ∀ seen : List String,
      (firstOccurAux seen l).Pairwise (fun a b => dedupKey a ≠ dedupKey b) := by
  induction l with
  | nil => intro seen; simp [firstOccurAux]
  | cons a rest ih =>
      intro seen
      by_cases h : dedupKey a ∈ seen
      · simpa [firstOccurAux, if_pos h] using ih seen
      · simp only [firstOccurAux, if_neg h, List.pairwise_cons]
        refine ⟨fun b hb => ?_, ih _⟩
        have := firstOccurAux_notMem_seen rest _ b hb
        intro hc
        exact this (by simp [← hc])

theorem firstOccurAux_sublist (l : List Doc) :
    ∀ seen : List String, (firstOccurAux seen l).Sublist l := by
  induction l with
  | nil => intro seen; simp [firstOccurAux]
  | cons a rest ih =>
      intro seen
      by_cases h : dedupKey a ∈ seen
      · simpa [firstOccurAux, if_pos h] using (ih seen).cons a
      · simpa [firstOccurAux, if_neg h] using (ih (dedupKey a :: seen)).cons₂ a

theorem firstOccurAux_find (l : List Doc) :
    ∀ (seen : List String) (k : String), k ∉ seen →
      (firstOccurAux seen l).find? (fun d => dedupKey d == k) =
        l.find? (fun d => dedupKey d == k) := by
  induction l with
  | nil => intro seen k _; simp [firstOccurAux]
  | cons a rest ih =>
      intro seen k hk
      by_cases h : dedupKey a ∈ seen
      · have hne : (dedupKey a == k) = false := by
          simp only [beq_eq_false_iff_ne, ne_eq]
          intro hc
          exact hk (hc ▸ h)
        simp only [firstOccurAux, if_pos h, List.find?_cons, hne]
        exact ih seen k hk
      · by_cases hak : dedupKey a = k
        · rw [show firstOccurAux seen (a :: rest) = a :: firstOccurAux (dedupKey a :: seen) rest from by
            simp [firstOccurAux, if_neg h]]
          simp [List.find?_cons, hak]
        · have hne : (dedupKey a == k) = false := by
            simp [beq_eq_false_iff_ne, hak]
          simp only [firstOccurAux, if_neg h, List.find?_cons, hne]
          refine ih _ k ?_
          simp only [List.mem_cons, not_or]
          exact ⟨fun hc => hak hc.symm, hk⟩

theorem firstOccur_rep (l : List Doc) (d : Doc) (hd : d ∈ l) :
    ∃ d', d' ∈ firstOccur l ∧ dedupKey d' = dedupKey d ∧
      l.find? (fun x => dedupKey x == dedupKey d) = some d' := by
  have hsome : (l.find? (fun x => dedupKey x == dedupKey d)).isSome := by
    rw [List.find?_isSome]
    exact ⟨d, hd, by simp⟩
  obtain ⟨d', hd'⟩ := Option.isSome_iff_exists.mp hsome
  refine ⟨d', ?_, ?_, hd'⟩
  · have hfind : (firstOccur l).find? (fun x => dedupKey x == dedupKey d) = some d' := by
      rw [firstOccur, firstOccurAux_find l [] (dedupKey d) (by simp)]
      exact hd'
    exact List.mem_of_find?_eq_some hfind
  · have := List.find?_some hd'
    simpa using this

theorem fetchSeqLegal_docid (env : Env) (qs : List String) :
    ∀ ds, fetchSeqLegal env qs = .ok ds → ∀ d ∈ ds, d.doc_id = none := by
  induction qs with
  | nil =>
      intro ds hds d hd
      simp only [fetchSeqLegal] at hds
      cases hds
      simp at hd
  | cons q rest ih =>
      intro ds hds d hd
      simp only [fetchSeqLegal] at hds
      cases hq : env.embed q with
      | error e => rw [hq] at hds; cases hds
      | ok emb =>
          rw [hq] at hds
          cases h2 : fetchSeqLegal env rest with
          | error e => rw [h2] at hds; cases hds
          | ok ds2 =>
              rw [h2] at hds
              cases hds
              rcases List.mem_append.mp hd with hmem | hmem
              · obtain ⟨r, _, rfl⟩ := List.mem_map.mp hmem
                rfl
              · exact ih ds2 h2 d hmem

theorem fetchSeqCases_docid (env : Env) (qs : List String) :
    ∀ ds, fetchSeqCases env qs = .ok ds → ∀ d ∈ ds, d.doc_id = none := by
  induction qs with
  | nil =>
      intro ds hds d hd
      simp only [fetchSeqCases] at hds
      cases hds
      simp at hd
  | cons q rest ih =>
      intro ds hds d hd
      simp only [fetchSeqCases] at hds
      cases hq : env.embed q with
      | error e => rw [hq] at hds; cases hds
      | ok emb =>
          rw [hq] at hds
          cases h2 : fetchSeqCases env rest with
          | error e => rw [h2] at hds; cases hds
          | ok ds2 =>
              rw [h2] at hds
              cases hds
              rcases List.mem_append.mp hd with hmem | hmem
              · obtain ⟨r, _, rfl⟩ := List.mem_map.mp hmem
                rfl
              · exact ih ds2 h2 d hmem

theorem runSearches_docid (env : Env) (lq cq : List String) (merged : List Doc)
    (h : runSearches env lq cq = .ok merged) : ∀ d ∈ merged, d.doc_id = none := by
  intro d hd
  rw [runSearches_eq] at h
  simp only [allFetched] at h
  cases hA : fetchSeqLegal env lq with
  | error e => rw [hA] at h; cases h
  | ok a =>
      rw [hA] at h
      cases hB : fetchSeqCases env cq with
      | error e => rw [hB] at h; cases h
      | ok b =>
          rw [hB] at h
          simp only [Except.map] at h
          cases h
          have hmem : d ∈ a ++ b := (firstOccurAux_sublist _ _).mem hd
          rcases List.mem_append.mp hmem with hm | hm
          · exact fetchSeqLegal_docid env lq a hA d hm
          · exact fetchSeqCases_docid env cq b hB d hm

theorem searchTableLegal_noResults (env : Env)
    (hemb : ∀ s, ∃ v, env.embed s = .ok v)
    (hfetch : ∀ emb, fetch_similar_documents_legal env emb 7 = []) :
    ∀ qs seen acc, searchTableLegal env qs seen acc = .ok (seen, acc) := by
  intro qs
  induction qs with
  | nil => intro seen acc; rfl
  | cons q rest ih =>
      intro seen acc
      obtain ⟨v, hv⟩ := hemb q
      simp [searchTableLegal, hv, hfetch v, addResults, ih]

theorem searchTableCases_noResults (env : Env)
    (hemb : ∀ s, ∃ v, env.embed s = .ok v)
    (hfetch : ∀ emb, fetch_similar_documents_cases env emb 11 = []) :
    ∀ qs seen acc, searchTableCases env qs seen acc = .ok (seen, acc) := by
  intro qs
  induction qs with
  | nil => intro seen acc; rfl
  | cons q rest ih =>
      intro seen acc
      obtain ⟨v, hv⟩ := hemb q
      simp [searchTableCases, hv, hfetch v, addResults, ih]

/-- When both search loops produce nothing, the pipeline returns the fixed
"nothing found" string, whatever the generation collaborator does. -/
theorem answer_of_noResults (env : Env) (query : String) (lq cq : List String)
    (hplan : planLists env query = .ok (lq, cq))
    (hemb : ∀ s, ∃ v, env.embed s = .ok v)
    (hfetchL : ∀ emb, fetch_similar_documents_legal env emb 7 = [])
    (hfetchC : ∀ emb, fetch_similar_documents_cases env emb 11 = []) :
    answer_query_unified env query = noInfoMsg := by
  have hrun : runSearches env lq cq = .ok [] := by
    simp [runSearches, searchTableLegal_noResults env hemb hfetchL,
      searchTableCases_noResults env hemb hfetchC]
  simp [answer_query_unified, answer_body, hplan, hrun]

theorem answer_of_emptyPlan (env : Env) (query : String)
    (h1 : (analyze_and_generate_queries env.planLLM query).lookup "legal_docs"
            = some (Json.arr []))
    (h2 : (analyze_and_generate_queries env.planLLM query).lookup "cases"
            = some (Json.arr [])) :
    answer_query_unified env query = noInfoMsg := by
  have hpl : planLists env query = .ok ([], []) := by
    simp [planLists, h1, h2, Json.asStrList]
  have hrun : runSearches env [] [] = .ok ([] : List Doc) := rfl
  simp [answer_query_unified, answer_body, hpl, hrun]

/-- C4: the truncated top-18 list handed to context assembly is sorted in
non-increasing order of similarity — for adjacent (indeed all) pairs,
`similarity[i] >= similarity[i+1]`. -/
theorem rank_ordering_invariant (all_results : List Doc) :
    (rankTop all_results).Pairwise (fun a b => b.similarity ≤ a.similarity) := by
  have hs : (all_results.insertionSort simGe).Pairwise simGe :=
    List.sorted_insertionSort simGe all_results
  exact hs.sublist (List.take_sublist 18 _)

/-- C4 witness: the ordering invariant at a concrete merged result list. -/
theorem rank_ordering_invariant_witness :
    (rankTop [({ content := "a", title := some "T", case_title := none,
                 section_type := none, doc_id := none,
                 source_table := "legal_docs", similarity := 5 } : Doc)]).Pairwise
      (fun a b => b.similarity ≤ a.similarity) :=
  rank_ordering_invariant _

/-- C5: the retriever's final output length is exactly
`min 18 (number of deduplicated candidates)`. -/
theorem truncation_bound (all_results : List Doc) :
    (rankTop all_results).length = min 18 all_results.length := by
  simp [rankTop]

/-- C5 witness: the truncation bound at a concrete one-element list. -/
theorem truncation_bound_witness :
    (rankTop [({ content := "b", title := some "T", case_title := none,
                 section_type := none, doc_id := none,
                 source_table := "legal_docs", similarity := 3 } : Doc)]).length
      = min 18 1 :=
  truncation_bound _

/-- C2: (a) if the Query Plan has empty lists for both tables then
`answer_query_unified` returns the fixed "couldn't find relevant
information" string — for every environment, i.e. independently of the
embedding, similarity-store and generation collaborators, none of which can
influence the result (so none is observably invoked), and any environment
agreeing on the planner output produces the same fixed string; (b) if every
similarity search returns zero rows (embeddings succeeding), the same fixed
string is returned, again for arbitrary generation behaviour. -/
theorem empty_results_short_circuit (env : Env) (query : String) :
    ((analyze_and_generate_queries env.planLLM query).lookup "legal_docs"
        = some (Json.arr []) →
     (analyze_and_generate_queries env.planLLM query).lookup "cases"
        = some (Json.arr []) →
     answer_query_unified env query = noInfoMsg ∧
       ∀ env2 : Env, env2.planLLM = env.planLLM →
         answer_query_unified env2 query = noInfoMsg) ∧
    (∀ lq cq, planLists env query = .ok (lq, cq) →
     (∀ s, ∃ v, env.embed s = .ok v) →
     (∀ emb, env.dbLegal emb 7 = .ok []) →
     (∀ emb, env.dbCases emb 11 = .ok []) →
     answer_query_unified env query = noInfoMsg) := by
  constructor
  · intro h1 h2
    refine ⟨answer_of_emptyPlan env query h1 h2, fun env2 hp => ?_⟩
    exact answer_of_emptyPlan env2 query (by rw [hp]; exact h1) (by rw [hp]; exact h2)
  · intro lq cq hplan hemb hdbL hdbC
    refine answer_of_noResults env query lq cq hplan hemb ?_ ?_
    · intro emb; simp [fetch_similar_documents_legal, hdbL emb]
    · intro emb; simp [fetch_similar_documents_cases, hdbC emb]

/-- C1: for every environment and query, `answer_query_unified` returns a
string (it is a total function), and that string is either the generator's
non-empty text or one of the four fixed user-facing messages — every
internal failure is converted to user-facing text, nothing is re-raised. -/
theorem answerQuery_total_user_facing (env : Env) (query : String) :
    answer_query_unified env query = procErrMsg ∨
    answer_query_unified env query = noInfoMsg ∨
    answer_query_unified env query = genErrMsg ∨
    answer_query_unified env query = emptyRespMsg ∨
    ∃ prompt text, env.generate prompt = .ok (some text) ∧ text ≠ "" ∧
      answer_query_unified env query = text := by
  unfold answer_query_unified answer_body
  cases hp : planLists env query with
  | error e => simp
  | ok p =>
      obtain ⟨lq, cq⟩ := p
      cases hr : runSearches env lq cq with
      | error e => simp [hr]
      | ok all =>
          by_cases he : all.isEmpty
          · simp [hr, he]
          · simp only [hr, he, Bool.false_eq_true, if_false]
            unfold get_gemini_response_unified
            cases hg : env.generate
                (unified_prompt (formatted_context ((rankTop all).map toCtx)) query) with
            | error e => simp [hg]
            | ok t =>
                cases t with
                | none => simp [hg]
                | some s =>
                    by_cases hs : s = ""
                    · simp [hg, hs]
                    · refine Or.inr (Or.inr (Or.inr (Or.inr ⟨_, s, hg, hs, ?_⟩)))
                      simp [hg, hs]

/-- C3: deduplication is global: the merged result list of a run of both
search loops is exactly the first-occurrence filter (keyed on the
100-character content prefix `dedupKey`) of the full fetched sequence —
all `legal_docs` sub-queries in list order, then all `cases` sub-queries in
list order (`allFetched`).  No two merged entries share a fingerprint, the
merged list is a subsequence of the fetched sequence, and the surviving
representative of every fetched doc's fingerprint is the first doc with
that fingerprint in processing order. -/
theorem dedup_global_first_wins (env : Env) (lq cq : List String) (merged : List Doc)
    (h : runSearches env lq cq = .ok merged) :
    ∃ full, allFetched env lq cq = .ok full ∧
      merged = firstOccur full ∧
      merged.Sublist full ∧
      merged.Pairwise (fun a b => dedupKey a ≠ dedupKey b) ∧
      ∀ d ∈ full, ∃ d2, d2 ∈ merged ∧ dedupKey d2 = dedupKey d ∧
        full.find? (fun x => dedupKey x == dedupKey d) = some d2 := by
  rw [runSearches_eq] at h
  cases hA : allFetched env lq cq with
  | error e => rw [hA] at h; cases h
  | ok full =>
      rw [hA] at h
      simp only [Except.map] at h
      cases h
      refine ⟨full, rfl, rfl, firstOccurAux_sublist full [],
        firstOccurAux_pairwise full [], ?_⟩
      intro d hd
      exact firstOccur_rep full d hd

theorem containsAnyKeyword_iff (q : String) (ks : List String) :
    containsAnyKeyword q ks = true ↔ ∃ k ∈ ks, k.data <:+: (pyLower q).data := by
  simp [containsAnyKeyword, List.any_eq_true]

theorem toJson_lookup_legal (p : QueryPlan) :
    p.toJson.lookup "legal_docs" = some (Json.arr (p.legal_docs.map Json.str)) := rfl

theorem toJson_lookup_cases (p : QueryPlan) :
    p.toJson.lookup "cases" = some (Json.arr (p.cases.map Json.str)) := rfl

/-- C6: when the LLM classification step fails, the fallback plan is
deterministic and total (it is a Lean function): the returned plan maps
`legal_docs` to the singleton holding the literal user query exactly when
the lowercased query contains one of the substrings section, article, act,
ipc, constitution (and to the empty list otherwise), and symmetrically for
`cases` with case, judgment, precedent, court, interpretation. -/
theorem keyword_fallback_characterization (user_query err : String) :
    ((analyze_and_generate_queries (.error err) user_query).lookup "legal_docs"
        = some (Json.arr [Json.str user_query]) ↔
      ∃ k ∈ (["section", "article", "act", "ipc", "constitution"] : List String),
        k.data <:+: (pyLower user_query).data) ∧
    ((analyze_and_generate_queries (.error err) user_query).lookup "legal_docs"
        = some (Json.arr []) ↔
      ¬ ∃ k ∈ (["section", "article", "act", "ipc", "constitution"] : List String),
        k.data <:+: (pyLower user_query).data) ∧
    ((analyze_and_generate_queries (.error err) user_query).lookup "cases"
        = some (Json.arr [Json.str user_query]) ↔
      ∃ k ∈ (["case", "judgment", "precedent", "court", "interpretation"] : List String),
        k.data <:+: (pyLower user_query).data) ∧
    ((analyze_and_generate_queries (.error err) user_query).lookup "cases"
        = some (Json.arr []) ↔
      ¬ ∃ k ∈ (["case", "judgment", "precedent", "court", "interpretation"] : List String),
        k.data <:+: (pyLower user_query).data) := by
  have key : analyze_and_generate_queries (.error err) user_query
      = (fallback_plan user_query).toJson := rfl
  rw [key, toJson_lookup_legal, toJson_lookup_cases]
  simp only [fallback_plan,
    ← containsAnyKeyword_iff user_query ["section", "article", "act", "ipc", "constitution"],
    ← containsAnyKeyword_iff user_query ["case", "judgment", "precedent", "court", "interpretation"]]
  by_cases h1 : containsAnyKeyword user_query
      ["section", "article", "act", "ipc", "constitution"] <;>
    by_cases h2 : containsAnyKeyword user_query
        ["case", "judgment", "precedent", "court", "interpretation"] <;>
      simp [h1, h2]

/-- C6 witness: a query containing "article" (case-insensitively) makes the
fallback target `legal_docs` with the literal query as sole sub-query. -/
theorem keyword_fallback_witness :
    (analyze_and_generate_queries (.error "LLM failure") "What is Article 21?").lookup
        "legal_docs" = some (Json.arr [Json.str "What is Article 21?"]) :=
  (keyword_fallback_characterization "What is Article 21?" "LLM failure").1.mpr
    ⟨"article", by decide, by decide⟩

/-- A parsed LLM plan whose `legal_docs` list has four entries: a dict with
both known keys, but violating the spec's max-length-3 schema. -/
def badPlan : Json :=
  .obj [("legal_docs", .arr [.str "a", .str "b", .str "c", .str "d"]),
        ("cases", .arr [])]

/-- C7 counterexample: the planner's validation accepts `badPlan` — a
mapping whose `legal_docs` list has length 4 — and returns it unchanged
instead of treating it as total planning failure; the heuristic fallback is
not triggered, and the returned plan's `legal_docs` list has length 4 > 3,
refuting "every Query Plan the planner returns has list values of length
0–3 per table". -/
theorem planner_validation_counterexample :
    validate_queries badPlan = true ∧
    analyze_and_generate_queries (.ok badPlan) "income tax rules" = badPlan ∧
    badPlan.lookup "legal_docs"
      = some (Json.arr [.str "a", .str "b", .str "c", .str "d"]) ∧
    (Json.arr [.str "a", .str "b", .str "c", .str "d"]).pyLen = some 4 ∧
    analyze_and_generate_queries (.ok badPlan) "income tax rules"
      ≠ (fallback_plan "income tax rules").toJson := by
  refine ⟨rfl, rfl, rfl, rfl, ?_⟩
  intro h
  have h3 : containsAnyKeyword "income tax rules"
      ["section", "article", "act", "ipc", "constitution"] = false := by decide
  have h4 : badPlan.lookup "legal_docs"
      = (fallback_plan "income tax rules").toJson.lookup "legal_docs" := by
    rw [← h]; rfl
  rw [toJson_lookup_legal] at h4
  simp [badPlan, Json.lookup, fallback_plan, h3] at h4

/-- C7 amended: the planner's validation checks only that the parsed value
is a dict containing both keys `legal_docs` and `cases` (with values that
survive the `len()` calls in the logging lines); any such failure triggers
the keyword fallback and a malformed value is never partially trusted, but
a passing dict is returned unchanged — extra keys, non-string elements and
lists longer than 3 are accepted, so returned plans can have per-table
lists of any length. -/
theorem planner_validation_amended (j : Json) (user_query : String) :
    ((j.isObj = false ∨ j.lookup "legal_docs" = none ∨ j.lookup "cases" = none ∨
        (j.lookup "legal_docs").bind Json.pyLen = none ∨
        (j.lookup "cases").bind Json.pyLen = none) →
      analyze_and_generate_queries (.ok j) user_query
        = (fallback_plan user_query).toJson) ∧
    (∀ v1 v2, j.lookup "legal_docs" = some v1 → j.lookup "cases" = some v2 →
      v1.pyLen.isSome → v2.pyLen.isSome → j.isObj = true →
      analyze_and_generate_queries (.ok j) user_query = j) := by
  constructor
  · intro hbad
    have hval : validate_queries j = false := by
      rcases hbad with h | h | h | h | h <;>
        simp [validate_queries, h]
    simp [analyze_and_generate_queries, hval]
  · intro v1 v2 h1 h2 hl1 hl2 hobj
    have hval : validate_queries j = true := by
      simp [validate_queries, hobj, h1, h2, hl1, hl2]
    simp [analyze_and_generate_queries, hval]

/-- C7 witness: a non-dict LLM output (the number 5) triggers the keyword
fallback. -/
theorem planner_validation_amended_witness :
    analyze_and_generate_queries (.ok (Json.num 5)) "hello"
      = (fallback_plan "hello").toJson :=
  (planner_validation_amended (Json.num 5) "hello").1 (Or.inl rfl)

/-- C8 amended: when the similarity store is unreachable,
`fetch_similar_documents` catches the exception itself (logging the detail)
and returns an empty result list, so for a non-empty Query Plan whose
database round trips all fail (embeddings succeeding) the caller receives
the "couldn't find relevant information" message — not the generic
"processing error" message, which is reserved for exceptions that escape
inside `answer_query_unified` itself (e.g. embedding failure).  The
exception detail never reaches the output: the result is a fixed string
independent of the error values. -/
theorem store_failure_amended (env : Env) (query : String) (lq cq : List String)
    (hplan : planLists env query = .ok (lq, cq))
    (_hnonempty : lq ≠ [] ∨ cq ≠ [])
    (hdbL : ∀ emb k, ∃ e, env.dbLegal emb k = .error e)
    (hdbC : ∀ emb k, ∃ e, env.dbCases emb k = .error e)
    (hemb : ∀ s, ∃ v, env.embed s = .ok v) :
    (∀ emb k, fetch_similar_documents_legal env emb k = []) ∧
    (∀ emb k, fetch_similar_documents_cases env emb k = []) ∧
    answer_query_unified env query = noInfoMsg ∧
    answer_query_unified env query ≠ procErrMsg := by
  have hfL : ∀ emb k, fetch_similar_documents_legal env emb k = [] := by
    intro emb k
    obtain ⟨e, he⟩ := hdbL emb k
    simp [fetch_similar_documents_legal, he]
  have hfC : ∀ emb k, fetch_similar_documents_cases env emb k = [] := by
    intro emb k
    obtain ⟨e, he⟩ := hdbC emb k
    simp [fetch_similar_documents_cases, he]
  have hans := answer_of_noResults env query lq cq hplan hemb
    (fun emb => hfL emb 7) (fun emb => hfC emb 11)
  refine ⟨hfL, hfC, hans, ?_⟩
  rw [hans]
  decide

/-- The concrete unreachable-store environment for C8: the planner LLM is
down (so the keyword fallback routes the query), embeddings succeed, and
every database round trip raises a connection error. -/
def envC8 : Env :=
  { embed := fun _ => .ok [1]
    dbLegal := fun _ _ => .error "connection to server failed"
    dbCases := fun _ _ => .error "connection to server failed"
    generate := fun _ => .ok (some "ANSWER")
    planLLM := .error "LLM failure" }

set_option maxRecDepth 8000 in
/-- C8 counterexample: with the store unreachable and a non-empty plan
(the query contains "section", so the fallback targets `legal_docs`), the
caller receives the "couldn't find relevant information" message, not the
generic "processing error" message the claim asserts. -/
theorem store_failure_counterexample :
    planLists envC8 "what does section 420 ipc say"
      = .ok (["what does section 420 ipc say"], []) ∧
    answer_query_unified envC8 "what does section 420 ipc say" = noInfoMsg ∧
    noInfoMsg ≠ procErrMsg :=
  ⟨rfl, rfl, by decide⟩

set_option maxRecDepth 8000 in
/-- C8 witness for the amended theorem, at the concrete environment. -/
theorem store_failure_amended_witness :
    answer_query_unified envC8 "what does section 420 ipc say" = noInfoMsg ∧
    answer_query_unified envC8 "what does section 420 ipc say" ≠ procErrMsg :=
  ⟨(store_failure_amended envC8 "what does section 420 ipc say"
      ["what does section 420 ipc say"] [] rfl (Or.inl (by decide))
      (fun _ _ => ⟨"connection to server failed", rfl⟩)
      (fun _ _ => ⟨"connection to server failed", rfl⟩)
      (fun _ => ⟨[1], rfl⟩)).2.2.1,
   (store_failure_amended envC8 "what does section 420 ipc say"
      ["what does section 420 ipc say"] [] rfl (Or.inl (by decide))
      (fun _ _ => ⟨"connection to server failed", rfl⟩)
      (fun _ _ => ⟨"connection to server failed", rfl⟩)
      (fun _ => ⟨[1], rfl⟩)).2.2.2⟩

/-- C9: context assembly partitions the ranked entries into the statutory
group (`source_table == "legal_docs"`) and the judicial group
(`source_table == "cases"`), each a subsequence of the input (relative rank
order preserved) containing exactly the input's entries with that tag; each
rendered entry truncates its content to the first 600 characters followed
by the ellipsis marker; and the groups are concatenated under their fixed
section headers, a header being omitted exactly when its group is empty. -/
theorem context_assembly_structure (context : List Ctx) :
    (statutoryOf context).Sublist context ∧
    (judicialOf context).Sublist context ∧
    (∀ c ∈ statutoryOf context, c.source_table = "legal_docs") ∧
    (∀ c ∈ judicialOf context, c.source_table = "cases") ∧
    (∀ c ∈ context, c.source_table = "legal_docs" → c ∈ statutoryOf context) ∧
    (∀ c ∈ context, c.source_table = "cases" → c ∈ judicialOf context) ∧
    (∀ p ∈ enumFrom 1 (statutoryOf context),
      renderStatutory p
        = toString p.1 ++ ". [" ++ p.2.title ++ "]\n"
            ++ p.2.content.take 600 ++ "...\n\n") ∧
    (∀ p ∈ enumFrom 1 (judicialOf context),
      renderJudicial p
        = toString p.1 ++ ". [" ++ p.2.title ++ "]" ++ sectionInfo p.2 ++ docIdInfo p.2
            ++ "\n" ++ p.2.content.take 600 ++ "...\n\n") ∧
    formatted_context context
      = (if statutoryOf context = [] then ""
         else "\n## Statutory Provisions (Constitution, IPC, IT Act):\n"
              ++ String.join ((enumFrom 1 (statutoryOf context)).map renderStatutory))
        ++ (if judicialOf context = [] then ""
            else "\n## Court Judgments & Precedents:\n"
                 ++ String.join ((enumFrom 1 (judicialOf context)).map renderJudicial)) := by
  refine ⟨List.filter_sublist context, List.filter_sublist context,
    ?_, ?_, ?_, ?_, fun p _ => rfl, fun p _ => rfl, ?_⟩
  · intro c hc
    have := (List.mem_filter.mp hc).2
    simpa using this
  · intro c hc
    have := (List.mem_filter.mp hc).2
    simpa using this
  · intro c hc hsrc
    exact List.mem_filter.mpr ⟨hc, by simp [hsrc]⟩
  · intro c hc hsrc
    exact List.mem_filter.mpr ⟨hc, by simp [hsrc]⟩
  · by_cases hs : statutoryOf context = [] <;>
      by_cases hj : judicialOf context = [] <;>
        simp [formatted_context, hs, hj, List.isEmpty_iff]

/-- C9 witness: the structure theorem at a concrete one-entry context. -/
theorem context_assembly_structure_witness :
    (statutoryOf [({ content := "Article 21 text", title := "Constitution",
                     section_type := "", doc_id := "", source_table := "legal_docs",
                     similarity := 9 } : Ctx)]).Sublist
      [({ content := "Article 21 text", title := "Constitution",
          section_type := "", doc_id := "", source_table := "legal_docs",
          similarity := 9 } : Ctx)] :=
  (context_assembly_structure _).1

/-- C10: `cases` rows carry no `doc_id` field (the SELECT returns only
`content, case_title, section_type, similarity`), so every entry of the
assembled context — in particular every judicial entry — has `doc_id = ""`
after the `doc.get("doc_id", "")` lookup, and the `" [doc_id: …]"` suffix
renders as the empty string for it. -/
theorem no_docid_in_cases_context (env : Env) (lq cq : List String) (merged : List Doc)
    (h : runSearches env lq cq = .ok merged) :
    (∀ r : CaseRow, r.toDoc.doc_id = none) ∧
    ∀ c ∈ (rankTop merged).map toCtx, c.doc_id = "" ∧ docIdInfo c = "" := by
  refine ⟨fun r => rfl, ?_⟩
  intro c hc
  obtain ⟨d, hd, rfl⟩ := List.mem_map.mp hc
  have hdm : d ∈ merged := by
    have h1 : d ∈ merged.insertionSort simGe :=
      List.mem_of_mem_take hd
    exact (List.mem_insertionSort simGe).mp h1
  have hnone : d.doc_id = none := runSearches_docid env lq cq merged h d hdm
  constructor
  · simp [toCtx, hnone]
  · simp [docIdInfo, toCtx, hnone]

/-- A well-behaved concrete environment: one sub-query per table, the
`legal_docs` search returning two rows and the `cases` search returning two
rows, the first of which duplicates the first legal row's content. -/
def envB : Env :=
  { embed := fun _ => .ok [1]
    dbLegal := fun _ _ => .ok
      [{ content := "The petitioner argued alpha", title := "T1", similarity := 9 },
       { content := "beta content", title := "T2", similarity := 5 }]
    dbCases := fun _ _ => .ok
      [{ content := "The petitioner argued alpha", case_title := "C1",
         section_type := "Facts", similarity := 8 },
       { content := "gamma content", case_title := "C2",
         section_type := "Issues", similarity := 7 }]
    generate := fun _ => .ok (some "ANSWER")
    planLLM := .ok (Json.obj [("legal_docs", Json.arr [Json.str "q1"]),
                              ("cases", Json.arr [Json.str "q2"])]) }

/-- The merged deduplicated result of `envB`'s two searches: the duplicated
case row is dropped, its legal twin (encountered first) survives. -/
def mergedB : List Doc :=
  [LegalRow.toDoc { content := "The petitioner argued alpha", title := "T1", similarity := 9 },
   LegalRow.toDoc { content := "beta content", title := "T2", similarity := 5 },
   CaseRow.toDoc { content := "gamma content", case_title := "C2",
                   section_type := "Issues", similarity := 7 }]

set_option maxRecDepth 8000 in
/-- C3 witness: at the concrete environment, the merged list carries no
duplicated fingerprint and the cross-table duplicate was dropped in favour
of the first occurrence. -/
theorem dedup_global_first_wins_witness :
    runSearches envB ["q1"] ["q2"] = .ok mergedB ∧
    mergedB.Pairwise (fun a b => dedupKey a ≠ dedupKey b) := by
  have h : runSearches envB ["q1"] ["q2"] = .ok mergedB := rfl
  obtain ⟨full, _, _, _, hpw, _⟩ := dedup_global_first_wins envB ["q1"] ["q2"] mergedB h
  exact ⟨h, hpw⟩

set_option maxRecDepth 8000 in
/-- C10 witness: a concrete context entry produced by the pipeline has an
empty `doc_id` and an empty rendered doc-id suffix. -/
theorem no_docid_in_cases_context_witness :
    (toCtx (CaseRow.toDoc { content := "gamma content", case_title := "C2",
                            section_type := "Issues", similarity := 7 })).doc_id = "" ∧
    docIdInfo (toCtx (CaseRow.toDoc { content := "gamma content", case_title := "C2",
                                      section_type := "Issues", similarity := 7 })) = "" :=
  (no_docid_in_cases_context envB ["q1"] ["q2"] mergedB (by rfl)).2
    (toCtx (CaseRow.toDoc { content := "gamma content", case_title := "C2",
                            section_type := "Issues", similarity := 7 }))
    (by decide)

/-- The concrete all-failures environment: the planner LLM is down and the
query matches no routing keyword, so the plan is empty for both tables. -/
def envA : Env :=
  { embed := fun _ => .ok []
    dbLegal := fun _ _ => .ok []
    dbCases := fun _ _ => .ok []
    generate := fun _ => .ok (some "SHOULD NOT APPEAR")
    planLLM := .error "LLM failure" }

set_option maxRecDepth 4000 in
/-- C2 witness: with an all-empty plan the pipeline returns the fixed
"couldn't find relevant information" string. -/
theorem empty_results_short_circuit_witness :
    answer_query_unified envA "hello there" = noInfoMsg :=
  (((empty_results_short_circuit envA "hello there").1) rfl rfl).1

set_option maxRecDepth 4000 in
/-- C1 witness: the case analysis at a concrete environment. -/
theorem answerQuery_total_user_facing_witness :
    answer_query_unified envB "hello" = procErrMsg ∨
    answer_query_unified envB "hello" = noInfoMsg ∨
    answer_query_unified envB "hello" = genErrMsg ∨
    answer_query_unified envB "hello" = emptyRespMsg ∨
    ∃ prompt text, envB.generate prompt = .ok (some text) ∧ text ≠ "" ∧
      answer_query_unified envB "hello" = text :=
  answerQuery_total_user_facing envB "hello"

end Jurix
